import Mathlib

/-!
Shallow embedding of `src/Main.py` (Engine Datalog Analyzer) and verification
of the specification's claims about it.

Tables are modelled as a list of headers plus rows of rational values; the
string-normalisation, column-mapping, window selection and detector logic are
translated function by function from the Python source.
-/

set_option maxHeartbeats 1000000

namespace Datalog

/-! ## String helpers (character-level, executable) -/

/-- Substring test on character lists: does `pat` occur at the start of `s`? -/
def startsWith : List Char → List Char → Bool
  | [], _ => true
  | _ :: _, [] => false
  | p :: ps, c :: cs => p == c && startsWith ps cs

/-- Substring test on character lists: does `pat` occur anywhere in `s`?
Mirrors Python's `pat in s`. -/
def hasSub (pat : List Char) : List Char → Bool
  | [] => pat.isEmpty
  | c :: rest => startsWith pat (c :: rest) || hasSub pat rest

/-- One character of the Python cleanup chain
`.lower().replace(" ", "").replace("(", "").replace(")", "")
.replace("%", "percent").replace("_", "")` from `map_columns` (Main.py:21).
Lower-casing commutes with the single-character removals, so the chain acts
independently on each character. -/
def normChar (c : Char) : List Char :=
  if c == ' ' || c == '(' || c == ')' then []
  else if c == '%' then "percent".data
  else if c == '_' then []
  else [c.toLower]

/-- `col_clean` of Main.py:21: the normalised form of a header used only
for keyword matching. -/
def normalize (col : String) : List Char :=
  (col.data.map normChar).flatten

/-- Keyword containment test `kw in col_clean` used by the mapper. -/
def hasKw (c : List Char) (kw : String) : Bool :=
  hasSub kw.data c

/-- Python `str.strip()` as applied by `data.columns.str.strip()` (Main.py:104). -/
def stripStr (s : String) : String :=
  ⟨((s.data.dropWhile Char.isWhitespace).reverse.dropWhile Char.isWhitespace).reverse⟩

/-! ## Column mapper (Main.py:8-39) -/

/-- The mapping dictionary of `map_columns`, one optional slot per channel key,
in the insertion order of the Python dict. -/
structure ColumnMapping where
  time : Option String
  accelerator_position : Option String
  boost_pressure : Option String
  target_rail_pressure : Option String
  engine_rpm : Option String
  ignition_timing : Option String
  fuel_rail_pressure_bar : Option String
  wastegate_valve_position : Option String
deriving Repr, DecidableEq

/-- The initial all-`None` mapping (Main.py:9-18). -/
def emptyMapping : ColumnMapping :=
  ⟨none, none, none, none, none, none, none, none⟩

/-- One iteration of the `for col in columns` loop of `map_columns`
(Main.py:20-37): the if/elif keyword chain, assigning `col` to the first
matching key.  Assignment overwrites whatever the slot held. -/
def mapStep (m : ColumnMapping) (col : String) : ColumnMapping :=
  let c := normalize col
  if hasKw c "time" then
    { m with time := some col }
  else if hasKw c "accelerator" && hasKw c "position" then
    { m with accelerator_position := some col }
  else if hasKw c "boost" && hasKw c "pressure" then
    { m with boost_pressure := some col }
  else if hasKw c "targetrail" || hasKw c "targetrailpressure" || hasKw c "targetrailpress" then
    { m with target_rail_pressure := some col }
  else if hasKw c "rpm" || hasKw c "enginerpm" then
    { m with engine_rpm := some col }
  else if (hasKw c "ignition" && hasKw c "timing") || hasKw c "timingdeg" then
    { m with ignition_timing := some col }
  else if hasKw c "fuelrail" && hasKw c "pressure" then
    { m with fuel_rail_pressure_bar := some col }
  else if hasKw c "wastegate" && hasKw c "position" then
    { m with wastegate_valve_position := some col }
  else m

/-- `map_columns(columns)` (Main.py:8-39). -/
def map_columns (columns : List String) : ColumnMapping :=
  columns.foldl mapStep emptyMapping

/-- The eight channel keys, for reasoning about which slot a header lands in. -/
inductive ChanKey where
  | time | accelerator_position | boost_pressure | target_rail_pressure
  | engine_rpm | ignition_timing | fuel_rail_pressure_bar | wastegate_valve_position
deriving Repr, DecidableEq

/-- Which key the if/elif chain of `map_columns` dispatches a header to
(the first predicate it satisfies), or `none` when no predicate matches. -/
def keyOf (col : String) : Option ChanKey :=
  let c := normalize col
  if hasKw c "time" then some .time
  else if hasKw c "accelerator" && hasKw c "position" then some .accelerator_position
  else if hasKw c "boost" && hasKw c "pressure" then some .boost_pressure
  else if hasKw c "targetrail" || hasKw c "targetrailpressure" || hasKw c "targetrailpress" then some .target_rail_pressure
  else if hasKw c "rpm" || hasKw c "enginerpm" then some .engine_rpm
  else if (hasKw c "ignition" && hasKw c "timing") || hasKw c "timingdeg" then some .ignition_timing
  else if hasKw c "fuelrail" && hasKw c "pressure" then some .fuel_rail_pressure_bar
  else if hasKw c "wastegate" && hasKw c "position" then some .wastegate_valve_position
  else none

/-- Read a mapping slot by key. -/
def getKey (m : ColumnMapping) : ChanKey → Option String
  | .time => m.time
  | .accelerator_position => m.accelerator_position
  | .boost_pressure => m.boost_pressure
  | .target_rail_pressure => m.target_rail_pressure
  | .engine_rpm => m.engine_rpm
  | .ignition_timing => m.ignition_timing
  | .fuel_rail_pressure_bar => m.fuel_rail_pressure_bar
  | .wastegate_valve_position => m.wastegate_valve_position

/-- Write a mapping slot by key. -/
def setKey (m : ColumnMapping) (k : ChanKey) (col : String) : ColumnMapping :=
  match k with
  | .time => { m with time := some col }
  | .accelerator_position => { m with accelerator_position := some col }
  | .boost_pressure => { m with boost_pressure := some col }
  | .target_rail_pressure => { m with target_rail_pressure := some col }
  | .engine_rpm => { m with engine_rpm := some col }
  | .ignition_timing => { m with ignition_timing := some col }
  | .fuel_rail_pressure_bar => { m with fuel_rail_pressure_bar := some col }
  | .wastegate_valve_position => { m with wastegate_valve_position := some col }

/-! ## Human-readable field names and the essential-column gate (Main.py:109-114) -/

/-- Python `str.title()` on already-lowercase input: upper-case a letter not
preceded by a letter, lower-case a letter preceded by one.  The boolean tracks
whether the previous character was alphabetic. -/
def titleAux : Bool → List Char → List Char
  | _, [] => []
  | prevAlpha, c :: rest =>
      if c.isAlpha then
        (if prevAlpha then c.toLower else c.toUpper) :: titleAux true rest
      else
        c :: titleAux false rest

/-- `field.replace("_", " ").title()` (Main.py:111 and 121). -/
def humanize (field : String) : String :=
  ⟨titleAux false (field.data.map (fun c => if c == '_' then ' ' else c))⟩

/-- `column_mapping.items()`: the dict's key/value pairs in insertion order. -/
def mappingItems (m : ColumnMapping) : List (String × Option String) :=
  [("time", m.time),
   ("accelerator_position", m.accelerator_position),
   ("boost_pressure", m.boost_pressure),
   ("target_rail_pressure", m.target_rail_pressure),
   ("engine_rpm", m.engine_rpm),
   ("ignition_timing", m.ignition_timing),
   ("fuel_rail_pressure_bar", m.fuel_rail_pressure_bar),
   ("wastegate_valve_position", m.wastegate_valve_position)]

/-- `essential_fields` (Main.py:110). -/
def essential_fields : List String := ["time", "boost_pressure"]

/-- `missing_fields` (Main.py:111): humanized names of unmapped essential keys,
in dict order. -/
def missing_fields (m : ColumnMapping) : List String :=
  ((mappingItems m).filter
      (fun p => p.2.isNone && essential_fields.contains p.1)).map
    (fun p => humanize p.1)

/-! ## Tables -/

/-- A pandas DataFrame, modelled as named columns over rational values:
`headers` are the column labels, each row lists one value per column. -/
structure DataTable where
  headers : List String
  rows : List (List ℚ)
deriving Repr, DecidableEq

/-- Position of a column label, `none` when the label is absent
(models `name in df.columns` / column lookup). -/
def colIndex (t : DataTable) (name : String) : Option ℕ :=
  t.headers.findIdx? (fun h => h == name)

/-- The value of a row at a column position (rows are rectangular in any
well-formed table; out-of-range reads default to 0). -/
def cellVal (r : List ℚ) (i : ℕ) : ℚ := r.getD i 0

/-- The series `df[name]`, empty when the column is absent. -/
def colVals (t : DataTable) (name : String) : List ℚ :=
  match colIndex t name with
  | some i => t.rows.map (fun r => cellVal r i)
  | none => []

/-- `convert_bar_to_psi(df, col_name)` (Main.py:61-62): the series
`df[col_name] * 14.5038`.  The decimal constant 14.5038 is the exact rational
145038/10000, written `mkRat` so that it evaluates by kernel reduction. -/
def convert_bar_to_psi (df : DataTable) (col_name : String) : List ℚ :=
  (colVals df col_name).map (fun v => v * mkRat 145038 10000)

/-! ## Window selector (Main.py:141-150) -/

/-- `wot_data`: rows with `Accelerator Position > 95` when that column exists,
otherwise the whole table unchanged. -/
def wot_data (t : DataTable) : DataTable :=
  match colIndex t "Accelerator Position" with
  | some i => { t with rows := t.rows.filter (fun r => decide (cellVal r i > 95)) }
  | none => t

/-- The Time series of a table. -/
def timesOf (t : DataTable) : List ℚ := colVals t "Time"

/-! ## Detectors (Main.py:321-434) -/

/-- Keep the rows whose mask entry is `true`
(pandas boolean-mask row selection `df[mask]`). -/
def filterByMask (rows : List (List ℚ)) (mask : List Bool) : List (List ℚ) :=
  ((rows.zip mask).filter (fun p => p.2)).map (fun p => p.1)

/-- The mask `series.diff().abs() > thr`: the first entry of `diff` is NaN and
any comparison with NaN is False, so position 0 is never selected; position
`i+1` is selected exactly when `|vals[i+1] - vals[i]| > thr`. -/
def diffGtMask (vals : List ℚ) (thr : ℚ) : List Bool :=
  match vals with
  | [] => []
  | _ :: tl => false :: (tl.zip vals).map (fun p => decide (|p.1 - p.2| > thr))

/-- `boost_fluctuations` (Main.py:324): rows of the analysis window where
`|diff(Boost Pressure)| > 3`. -/
def boost_fluctuations (w : DataTable) : List (List ℚ) :=
  filterByMask w.rows (diffGtMask (colVals w "Boost Pressure") 3)

/-- `wastegate_zero` (Main.py:385): rows where `Wastegate Valve Position == 0`. -/
def wastegate_zero (w : DataTable) : List (List ℚ) :=
  match colIndex w "Wastegate Valve Position" with
  | some i => w.rows.filter (fun r => decide (cellVal r i = 0))
  | none => []

/-- `get_smoothness_score(std_dev, data_type)` (Main.py:65-89). -/
def get_smoothness_score (std_dev : ℚ) (data_type : String) : String :=
  if data_type == "boost" then
    if std_dev < 1 then "Very Smooth"
    else if std_dev < 3 then "Smooth"
    else if std_dev < 5 then "Somewhat Smooth"
    else "Not Smooth"
  else if data_type == "timing" then
    if std_dev < 1 then "Very Smooth"
    else if std_dev < 3 then "Smooth"
    else if std_dev < 5 then "Somewhat Smooth"
    else "Not Smooth"
  else "N/A"

/-- Modelled from the spec: the timing dip-then-recover detector of spec §4.6
is not present in `src/Main.py` (it belongs to another variant of the
repository); per the spec it flags each index `i` in `1..n-2` where
`IgnitionTiming[i] < IgnitionTiming[i-1]` and
`IgnitionTiming[i+1] > IgnitionTiming[i]`. -/
def timing_dip_recover (ts : List ℚ) : List ℕ :=
  (List.range ts.length).filter
    (fun i => decide (1 ≤ i) && decide (i + 1 < ts.length) &&
      decide (ts.getD i 0 < ts.getD (i - 1) 0) &&
      decide (ts.getD (i + 1) 0 > ts.getD i 0))

/-! ## The run pipeline (Main.py:96-437, control flow) -/

/-- The names bound at module level by the imports of Main.py:1-5
(`import streamlit as st`, `import pandas as pd`,
`import plotly.graph_objects as go`, `from plotly.subplots import
make_subplots`, `import numpy as np`).  Note `io` is not among them. -/
def importedNames : List String := ["st", "pd", "go", "make_subplots", "np"]

/-- `standardized_columns` (Main.py:132-138): raw column label → canonical
display name, the fuel key mapped to "Fuel Rail Pressure (psi)" and every
other key to its humanized name. -/
def standardizedPairs (m : ColumnMapping) : List (String × String) :=
  (mappingItems m).filterMap (fun p =>
    match p.2 with
    | some col =>
        some (col,
          if p.1 == "fuel_rail_pressure_bar" then "Fuel Rail Pressure (psi)"
          else humanize p.1)
    | none => none)

/-- `df.rename(columns=pairs)` on a single label. -/
def renameHeader (pairs : List (String × String)) (h : String) : String :=
  match pairs.find? (fun p => p.1 == h) with
  | some p => p.2
  | none => h

/-- How far a run of the script gets after a successful CSV parse. -/
inductive RunOutcome where
  | errorMissing (fields : List String)
  | errorTimeMissing
  | nameError
  | completed (window : DataTable)
deriving Repr, DecidableEq

/-- The projection of Main.py:128-139: strip headers (104), derive the psi
fuel column when a bar source is mapped (128-129), rename matched raw columns
to standardized display names (132-139). -/
def projectTable (headers : List String) (rows : List (List ℚ)) : DataTable :=
  let stripped := headers.map stripStr
  let m := map_columns stripped
  let base : DataTable := ⟨stripped, rows⟩
  let withFuel : DataTable :=
    match m.fuel_rail_pressure_bar with
    | some c =>
        ⟨stripped ++ ["Fuel Rail Pressure (psi)"],
         (rows.zip (convert_bar_to_psi base c)).map (fun p => p.1 ++ [p.2])⟩
    | none => base
  ⟨withFuel.headers.map (renameHeader (standardizedPairs m)), withFuel.rows⟩

/-- The analysis window handed to plotting and the detectors: the WOT subset
of the projected table (Main.py:141-150). -/
def analysisWindow (headers : List String) (rows : List (List ℚ)) : DataTable :=
  wot_data (projectTable headers rows)

/-- The top-level flow of Main.py:102-437 for a parsed table: strip headers
(104), map columns (107), abort on missing essential columns (113-114),
project and select the WOT window (128-150), abort if `Time` is absent
(153-154), then run the DataFrame-information step (163), which evaluates the
unbound global name `io` — a `NameError` — before any detector or report code
is reached.  `completed` marks reaching the plotting/report/detector code at
168-528. -/
def runPipeline (headers : List String) (rows : List (List ℚ)) : RunOutcome :=
  let m := map_columns (headers.map stripStr)
  let miss := missing_fields m
  if miss.isEmpty then
    let w := analysisWindow headers rows
    if w.headers.contains "Time" then
      if importedNames.contains "io" then RunOutcome.completed w
      else RunOutcome.nameError
    else RunOutcome.errorTimeMissing
  else RunOutcome.errorMissing miss

/-- Whether a run outcome reached the detector suite / log report. -/
def reachesDetectors : RunOutcome → Bool
  | .completed _ => true
  | _ => false

/-- Concrete table for the C4 witness: rows at throttle 96, 95 and 100. -/
def tAccel : DataTable :=
  ⟨["Time", "Accelerator Position"], [[0, 96], [1, 95], [2, 100]]⟩

/-- Concrete table for the C6 witness. -/
def tWg : DataTable :=
  ⟨["Time", "Wastegate Valve Position"], [[0, 0], [1, 3], [2, mkRat 1 2]]⟩

/-- Concrete table for the C10 witness: a single 1-bar reading. -/
def dfBar : DataTable := ⟨["Fuel Rail Pressure (bar)"], [[1]]⟩

/-! ## Shared helper lemmas -/

/-- `mapStep` is exactly: dispatch the header with `keyOf` and overwrite that
slot (Python dict assignment), leaving the mapping unchanged on no match. -/
theorem mapStep_keyOf (m : ColumnMapping) (col : String) :
    mapStep m col = (match keyOf col with
      | some k => setKey m k col
      | none => m) := by
  simp only [mapStep, keyOf]
  repeat' split <;> simp_all [setKey]

theorem getKey_setKey_same (m : ColumnMapping) (k : ChanKey) (col : String) :
    getKey (setKey m k col) k = some col := by
  cases k <;> rfl

theorem getKey_setKey_ne (m : ColumnMapping) (k k' : ChanKey) (col : String)
    (h : k' ≠ k) : getKey (setKey m k' col) k = getKey m k := by
  cases k <;> cases k' <;> first
    | rfl
    | exact absurd rfl h

/-- Folding the mapper loop computes, per key, a fold that keeps the most
recent header dispatched to that key. -/
theorem getKey_foldl (cols : List String) (m : ColumnMapping) (k : ChanKey) :
    getKey (cols.foldl mapStep m) k =
      cols.foldl (fun acc c => if keyOf c = some k then some c else acc) (getKey m k) := by
  induction cols generalizing m with
  | nil => rfl
  | cons c rest ih =>
      simp only [List.foldl_cons, ih, mapStep_keyOf]
      congr 1
      cases h : keyOf c with
      | none => simp [h]
      | some k' =>
          by_cases hk : k' = k
          · subst hk; simp [h, getKey_setKey_same]
          · simp [h, hk, getKey_setKey_ne m k k' c hk]

/-- A fold that keeps the most recent header dispatched to key `k` computes
the last element of the matching headers (or the start value when none
matches). -/
theorem foldl_keep_last (k : ChanKey) (cols : List String) (acc : Option String) :
    cols.foldl (fun a c => if keyOf c = some k then some c else a) acc =
      ((cols.filter (fun c => decide (keyOf c = some k))).getLast?).elim acc some := by
  induction cols generalizing acc with
  | nil => rfl
  | cons c rest ih =>
      simp only [List.foldl_cons, List.filter_cons, decide_eq_true_eq]
      by_cases h : keyOf c = some k
      · rw [if_pos h, if_pos h, ih]
        cases hf : rest.filter (fun c => decide (keyOf c = some k)) with
        | nil => rfl
        | cons x xs =>
            rw [List.getLast?_cons_cons]
            cases hl : (x :: xs).getLast? with
            | none => exact absurd (List.getLast?_eq_none_iff.mp hl) (by simp)
            | some y => rfl
      · rw [if_neg h, if_neg h, ih]

theorem getKey_empty (k : ChanKey) : getKey emptyMapping k = none := by
  cases k <;> rfl

theorem missing_fields_eq (m : ColumnMapping) :
    missing_fields m =
      (if m.time.isNone then ["Time"] else []) ++
        (if m.boost_pressure.isNone then ["Boost Pressure"] else []) := by
  obtain ⟨t, a, b, tr, er, it, f, w⟩ := m
  cases t <;> cases a <;> cases b <;> cases tr <;> cases er <;> cases it <;>
    cases f <;> cases w <;> rfl

theorem zip_get? {α β : Type} (l1 : List α) (l2 : List β) (i : ℕ) :
    (l1.zip l2).get? i = (l1.get? i).bind fun a => (l2.get? i).map fun b => (a, b) := by
  induction l1 generalizing l2 i with
  | nil => simp
  | cons x xs ih =>
      cases l2 with
      | nil => cases i <;> simp
      | cons y ys =>
          cases i with
          | zero => simp
          | succ i => simpa using ih ys i

theorem filterByMask_cons (a : List ℚ) (as : List (List ℚ)) (b : Bool) (bs : List Bool) :
    filterByMask (a :: as) (b :: bs) =
      if b then a :: filterByMask as bs else filterByMask as bs := by
  cases b <;> simp [filterByMask]

theorem mem_filterByMask (rows : List (List ℚ)) (mask : List Bool) (r : List ℚ) :
    r ∈ filterByMask rows mask ↔ ∃ j, rows.get? j = some r ∧ mask.get? j = some true := by
  induction rows generalizing mask with
  | nil => simp [filterByMask]
  | cons a as ih =>
      cases mask with
      | nil => simp [filterByMask]
      | cons b bs =>
          rw [filterByMask_cons]
          cases b with
          | false =>
              simp only [Bool.false_eq_true, if_false]
              rw [ih]
              constructor
              · rintro ⟨j, h1, h2⟩
                exact ⟨j + 1, by simpa using h1, by simpa using h2⟩
              · rintro ⟨j, h1, h2⟩
                cases j with
                | zero => simp at h2
                | succ j => exact ⟨j, by simpa using h1, by simpa using h2⟩
          | true =>
              simp only [if_true]
              rw [List.mem_cons, ih]
              constructor
              · rintro (rfl | ⟨j, h1, h2⟩)
                · exact ⟨0, rfl, rfl⟩
                · exact ⟨j + 1, by simpa using h1, by simpa using h2⟩
              · rintro ⟨j, h1, h2⟩
                cases j with
                | zero =>
                    left
                    simpa using (by simpa using h1 : a = r).symm
                | succ j => exact Or.inr ⟨j, by simpa using h1, by simpa using h2⟩

theorem diffGtMask_get_zero (vals : List ℚ) (thr : ℚ) :
    (diffGtMask vals thr).get? 0 = if vals = [] then none else some false := by
  cases vals <;> simp [diffGtMask]

theorem diffGtMask_get_succ (vals : List ℚ) (thr : ℚ) (j : ℕ) :
    (diffGtMask vals thr).get? (j + 1) =
      (vals.get? (j + 1)).bind fun a =>
        (vals.get? j).map fun b => decide (|a - b| > thr) := by
  cases vals with
  | nil => simp [diffGtMask]
  | cons v tl =>
      simp only [diffGtMask, List.get?_cons_succ, List.get?_map, zip_get?]
      cases htl : tl.get? j <;> cases hv : (v :: tl).get? j <;> simp [htl, hv]


/-! ## Claim theorems -/

/-- C1 (counterexample): two headers both dispatch to the Time key, and
`map_columns` keeps the SECOND one — the first matching header does not win,
it is silently replaced by the later one. -/
theorem mapper_first_match_counterexample :
    keyOf "Engine Time" = some ChanKey.time ∧
    keyOf "Total Time" = some ChanKey.time ∧
    (map_columns ["Engine Time", "Total Time"]).time = some "Total Time" ∧
    (map_columns ["Engine Time", "Total Time"]).time ≠ some "Engine Time" := by
  refine ⟨by decide, by decide, by decide, by decide⟩

/-- C1 (amended): each `ChannelKey` slot of the mapping holds at most one
header, namely the LAST header in file order that the if/elif chain
dispatches to that key (`none` when no header matches); an earlier match is
silently overwritten by a later one. -/
theorem mapper_last_match_wins (cols : List String) (k : ChanKey) :
    getKey (map_columns cols) k =
      (cols.filter (fun c => decide (keyOf c = some k))).getLast? := by
  rw [map_columns, getKey_foldl, getKey_empty, foldl_keep_last]
  cases (cols.filter (fun c => decide (keyOf c = some k))).getLast? <;> rfl

/-- C1 (witness): the amended statement at a concrete duplicate-header
input. -/
theorem mapper_last_match_wins_witness :
    getKey (map_columns ["Engine Time", "Total Time"]) ChanKey.time =
      ((["Engine Time", "Total Time"]).filter
        (fun c => decide (keyOf c = some ChanKey.time))).getLast? ∧
    getKey (map_columns ["Engine Time", "Total Time"]) ChanKey.time =
      some "Total Time" :=
  ⟨mapper_last_match_wins ["Engine Time", "Total Time"] ChanKey.time, by decide⟩

/-- C4: with an `Accelerator Position` column at position `i`, the analysis
window consists exactly of the rows whose accelerator value is strictly
greater than 95 (so a row at exactly 95 is excluded); without that column the
window is the whole table, no row dropped. -/
theorem window_selector_rows (t : DataTable) :
    (colIndex t "Accelerator Position" = none → wot_data t = t) ∧
    (∀ i, colIndex t "Accelerator Position" = some i →
      (wot_data t).headers = t.headers ∧
      (wot_data t).rows = t.rows.filter (fun r => decide (cellVal r i > 95)) ∧
      ∀ r, r ∈ (wot_data t).rows ↔ r ∈ t.rows ∧ cellVal r i > 95) := by
  constructor
  · intro h
    simp only [wot_data, h]
  · intro i h
    refine ⟨?_, ?_, ?_⟩
    · simp [wot_data, h]
    · simp [wot_data, h]
    · intro r
      simp [wot_data, h, List.mem_filter]

/-- C4 (witness): the window keeps rows 96 and 100 and excludes the row at
exactly 95. -/
theorem window_selector_rows_witness :
    colIndex tAccel "Accelerator Position" = some 1 ∧
    ((wot_data tAccel).headers = tAccel.headers ∧
      (wot_data tAccel).rows =
        tAccel.rows.filter (fun r => decide (cellVal r 1 > 95)) ∧
      ∀ r, r ∈ (wot_data tAccel).rows ↔ r ∈ tAccel.rows ∧ cellVal r 1 > 95) ∧
    ([1, 95] : List ℚ) ∉ (wot_data tAccel).rows ∧
    ([0, 96] : List ℚ) ∈ (wot_data tAccel).rows :=
  ⟨by decide, (window_selector_rows tAccel).2 1 (by decide), by decide, by decide⟩

/-- C5 (counterexample): the window selector performs no sort — on an input
whose rows are out of time order the returned window's Time series is
`[2, 1]`, which is not ascending. -/
theorem window_not_sorted_counterexample :
    timesOf (wot_data ⟨["Time"], [[2], [1]]⟩) = [2, 1] ∧
    ¬ List.Sorted (fun a b => a ≤ b) (timesOf (wot_data ⟨["Time"], [[2], [1]]⟩)) := by
  refine ⟨by decide, by decide⟩

/-- C5 (amended): the window selector returns rows in input file order (a
sublist of the input rows, headers unchanged) and performs no sort; the
window's Time series is ascending only when the input's already is. -/
theorem window_preserves_input_order (t : DataTable) :
    (wot_data t).headers = t.headers ∧
    (wot_data t).rows.Sublist t.rows ∧
    (List.Sorted (fun a b => a ≤ b) (timesOf t) →
      List.Sorted (fun a b => a ≤ b) (timesOf (wot_data t))) := by
  cases h : colIndex t "Accelerator Position" with
  | none =>
      refine ⟨?_, ?_, ?_⟩
      · simp [wot_data, h]
      · simp only [wot_data, h]
        exact List.Sublist.refl _
      · simp only [wot_data, h]
        exact fun hs => hs
  | some i =>
      refine ⟨?_, ?_, ?_⟩
      · simp [wot_data, h]
      · simp only [wot_data, h]
        exact List.filter_sublist _
      · simp only [wot_data, h]
        intro hs
        simp only [timesOf, colVals, colIndex] at hs ⊢
        cases hf : t.headers.findIdx? (fun h => h == "Time") with
        | none => simp [hf]
        | some j =>
            simp only [hf] at hs ⊢
            exact List.Pairwise.sublist
              (List.Sublist.map _ (List.filter_sublist _)) hs

/-- C5 (witness): the amended statement at a concrete sorted input. -/
theorem window_preserves_input_order_witness :
    List.Sorted (fun a b : ℚ => a ≤ b) (timesOf ⟨["Time"], [[1], [2]]⟩) ∧
    List.Sorted (fun a b : ℚ => a ≤ b)
      (timesOf (wot_data ⟨["Time"], [[1], [2]]⟩)) :=
  ⟨by decide, (window_preserves_input_order ⟨["Time"], [[1], [2]]⟩).2.2 (by decide)⟩

/-- C6 (counterexample): a wastegate value of 0.5 is strictly below 1 percent,
yet the detector flags nothing on that table — the code tests `== 0`, not
`< 1`. -/
theorem wastegate_half_percent_counterexample :
    cellVal [0, mkRat 1 2] 1 < 1 ∧
    wastegate_zero ⟨["Time", "Wastegate Valve Position"], [[0, mkRat 1 2]]⟩ = [] := by
  refine ⟨by decide, by decide⟩

/-- C6 (amended): with a `Wastegate Valve Position` column at position `i`,
the detector flags exactly the rows whose wastegate value equals 0 (strict
equality, so 0.5 is not flagged). -/
theorem wastegate_zero_flags_eq_zero (w : DataTable) (i : ℕ)
    (h : colIndex w "Wastegate Valve Position" = some i) :
    ∀ r, r ∈ wastegate_zero w ↔ r ∈ w.rows ∧ cellVal r i = 0 := by
  intro r
  simp only [wastegate_zero, h]
  simp [List.mem_filter]

/-- C6 (witness): the amended statement on a concrete table; only the row
with value exactly 0 is flagged. -/
theorem wastegate_zero_flags_eq_zero_witness :
    colIndex tWg "Wastegate Valve Position" = some 1 ∧
    (∀ r, r ∈ wastegate_zero tWg ↔ r ∈ tWg.rows ∧ cellVal r 1 = 0) ∧
    wastegate_zero tWg = [[0, 0]] :=
  ⟨by decide, wastegate_zero_flags_eq_zero tWg 1 (by decide), by decide⟩

/-- C7 (counterexample): a standard deviation of exactly 0.5 scores
"Very Smooth", not "Smooth" — the code's thresholds are `<1`, `<3`, `<5`,
not `<0.5`, `<1.5`, `<3`. -/
theorem smoothness_half_counterexample :
    get_smoothness_score (mkRat 1 2) "boost" = "Very Smooth" ∧
    ("Very Smooth" : String) ≠ "Smooth" := by
  refine ⟨by decide, by decide⟩

/-- C7 (amended): the smoothness buckets use strict thresholds `<1`
"Very Smooth", `<3` "Smooth", `<5` "Somewhat Smooth", else "Not Smooth"
(identically for boost and timing), so exactly 0.5 falls into "Very Smooth"
and the boundary value 1 falls into "Smooth". -/
theorem smoothness_buckets (s : ℚ) :
    (s < 1 → get_smoothness_score s "boost" = "Very Smooth") ∧
    (1 ≤ s → s < 3 → get_smoothness_score s "boost" = "Smooth") ∧
    (3 ≤ s → s < 5 → get_smoothness_score s "boost" = "Somewhat Smooth") ∧
    (5 ≤ s → get_smoothness_score s "boost" = "Not Smooth") ∧
    get_smoothness_score s "timing" = get_smoothness_score s "boost" := by
  refine ⟨?_, ?_, ?_, ?_, ?_⟩
  · intro h1
    simp [get_smoothness_score, h1]
  · intro h1 h2
    have h3 : ¬ s < 1 := by linarith
    simp [get_smoothness_score, h2, h3]
  · intro h1 h2
    have h3 : ¬ s < 1 := by linarith
    have h4 : ¬ s < 3 := by linarith
    simp [get_smoothness_score, h2, h3, h4]
  · intro h1
    have h3 : ¬ s < 1 := by linarith
    have h4 : ¬ s < 3 := by linarith
    have h5 : ¬ s < 5 := by linarith
    simp [get_smoothness_score, h3, h4, h5]
  · simp [get_smoothness_score]

/-- C7 (witness): the amended statement at the boundary value 1. -/
theorem smoothness_buckets_witness :
    (1 : ℚ) ≤ 1 ∧ (1 : ℚ) < 3 ∧ get_smoothness_score 1 "boost" = "Smooth" :=
  ⟨by norm_num, by norm_num,
    (smoothness_buckets 1).2.1 (by norm_num) (by norm_num)⟩

/-- C10: `convert_bar_to_psi` multiplies each value of the selected series by
the fixed factor 14.5038 = 145038/10000, preserving the series length. -/
theorem convert_bar_pointwise (df : DataTable) (col : String) (j : ℕ) (v : ℚ)
    (h : (colVals df col).get? j = some v) :
    (convert_bar_to_psi df col).get? j = some (v * mkRat 145038 10000) ∧
    (convert_bar_to_psi df col).length = (colVals df col).length := by
  constructor
  · simp only [convert_bar_to_psi]
    rw [List.get?_map, h]
    rfl
  · simp [convert_bar_to_psi]

/-- C10 (witness): converting 1 bar yields exactly 14.5038 psi, within the
claimed 1e-6 tolerance. -/
theorem convert_bar_pointwise_witness :
    (colVals dfBar "Fuel Rail Pressure (bar)").get? 0 = some 1 ∧
    (convert_bar_to_psi dfBar "Fuel Rail Pressure (bar)").get? 0 =
      some ((1 : ℚ) * mkRat 145038 10000) ∧
    |((1 : ℚ) * mkRat 145038 10000) - mkRat 145038 10000| < mkRat 1 1000000 :=
  ⟨by decide, (convert_bar_pointwise dfBar "Fuel Rail Pressure (bar)" 0 1 (by decide)).1,
    by
      rw [one_mul, sub_self, abs_zero]
      decide⟩

/-! ## Pipeline control-flow lemmas -/

theorem runPipeline_eq_error (headers : List String) (rows : List (List ℚ))
    (h : (missing_fields (map_columns (headers.map stripStr))).isEmpty = false) :
    runPipeline headers rows =
      RunOutcome.errorMissing (missing_fields (map_columns (headers.map stripStr))) := by
  simp only [runPipeline, h, Bool.false_eq_true, if_false]

theorem runPipeline_ne_error (headers : List String) (rows : List (List ℚ))
    (h : (missing_fields (map_columns (headers.map stripStr))).isEmpty = true) :
    ∀ fs, runPipeline headers rows ≠ RunOutcome.errorMissing fs := by
  intro fs
  simp only [runPipeline, h, if_true]
  split
  · split <;> simp
  · simp

theorem missing_isEmpty_iff (m : ColumnMapping) :
    (missing_fields m).isEmpty = true ↔ (m.time ≠ none ∧ m.boost_pressure ≠ none) := by
  rw [missing_fields_eq]
  cases m.time <;> cases m.boost_pressure <;> simp

/-- C2: any run that passes both validation gates (essential columns mapped,
`Time` present in the window) stops with the `NameError` on the unbound
global `io` at the DataFrame-information step, and therefore never reaches
the detector suite or the log report. -/
theorem validated_run_hits_name_error (headers : List String) (rows : List (List ℚ))
    (h1 : missing_fields (map_columns (headers.map stripStr)) = [])
    (h2 : (analysisWindow headers rows).headers.contains "Time" = true) :
    runPipeline headers rows = RunOutcome.nameError ∧
    reachesDetectors (runPipeline headers rows) = false := by
  have hio : importedNames.contains "io" = false := by decide
  have hrun : runPipeline headers rows = RunOutcome.nameError := by
    simp only [runPipeline, h1, h2, hio, List.isEmpty_nil, if_true,
      Bool.false_eq_true, if_false]
  exact ⟨hrun, by rw [hrun]; rfl⟩

/-- C2 (witness): a well-formed upload (Time and Boost Pressure present)
passes both gates and ends in the `NameError`. -/
theorem validated_run_hits_name_error_witness :
    missing_fields (map_columns ((["Time (s)", "Boost Pressure (psi)"]).map stripStr)) = [] ∧
    (analysisWindow ["Time (s)", "Boost Pressure (psi)"] [[0, 10], [1, 14]]).headers.contains
      "Time" = true ∧
    runPipeline ["Time (s)", "Boost Pressure (psi)"] [[0, 10], [1, 14]] =
      RunOutcome.nameError :=
  ⟨by decide, by decide,
    (validated_run_hits_name_error ["Time (s)", "Boost Pressure (psi)"] [[0, 10], [1, 14]]
      (by decide) (by decide)).1⟩

/-- C3: the run aborts with the missing-essential-columns error exactly when
Time or BoostPressure is unmapped; the message lists the humanized names of
precisely the missing essential keys (both "Time" and "Boost Pressure" when
both are missing), and an aborted run never reaches the detectors. -/
theorem essential_column_gate (headers : List String) (rows : List (List ℚ))
    (m : ColumnMapping) (hm : map_columns (headers.map stripStr) = m) :
    (runPipeline headers rows = RunOutcome.errorMissing (missing_fields m) ↔
      (m.time = none ∨ m.boost_pressure = none)) ∧
    (m.time = none → m.boost_pressure = none →
      runPipeline headers rows = RunOutcome.errorMissing ["Time", "Boost Pressure"]) ∧
    (m.time = none → m.boost_pressure ≠ none →
      runPipeline headers rows = RunOutcome.errorMissing ["Time"]) ∧
    (m.time ≠ none → m.boost_pressure = none →
      runPipeline headers rows = RunOutcome.errorMissing ["Boost Pressure"]) ∧
    (∀ fs, runPipeline headers rows = RunOutcome.errorMissing fs →
      reachesDetectors (runPipeline headers rows) = false) := by
  subst hm
  refine ⟨?_, ?_, ?_, ?_, ?_⟩
  · constructor
    · intro h
      by_contra hc
      push_neg at hc
      exact runPipeline_ne_error headers rows
        ((missing_isEmpty_iff _).mpr hc) _ h
    · intro h
      apply runPipeline_eq_error
      cases he : (missing_fields (map_columns (headers.map stripStr))).isEmpty with
      | false => rfl
      | true =>
          have := (missing_isEmpty_iff _).mp he
          rcases h with h | h
          · exact absurd h this.1
          · exact absurd h this.2
  · intro ht hb
    have hlist : missing_fields (map_columns (headers.map stripStr)) =
        ["Time", "Boost Pressure"] := by
      rw [missing_fields_eq, ht, hb]
      rfl
    have := runPipeline_eq_error headers rows (by rw [hlist]; rfl)
    rw [hlist] at this
    exact this
  · intro ht hb
    obtain ⟨x, hx⟩ := Option.ne_none_iff_exists'.mp hb
    have hlist : missing_fields (map_columns (headers.map stripStr)) = ["Time"] := by
      rw [missing_fields_eq, ht, hx]
      rfl
    have := runPipeline_eq_error headers rows (by rw [hlist]; rfl)
    rw [hlist] at this
    exact this
  · intro ht hb
    obtain ⟨x, hx⟩ := Option.ne_none_iff_exists'.mp ht
    have hlist : missing_fields (map_columns (headers.map stripStr)) =
        ["Boost Pressure"] := by
      rw [missing_fields_eq, hx, hb]
      rfl
    have := runPipeline_eq_error headers rows (by rw [hlist]; rfl)
    rw [hlist] at this
    exact this
  · intro fs h
    rw [h]
    rfl

/-- C3 (witness): a table with no usable header aborts naming both essential
columns. -/
theorem essential_column_gate_witness :
    (map_columns ((["Foo"]).map stripStr)).time = none ∧
    (map_columns ((["Foo"]).map stripStr)).boost_pressure = none ∧
    runPipeline ["Foo"] [[1]] = RunOutcome.errorMissing ["Time", "Boost Pressure"] :=
  ⟨by decide, by decide,
    (essential_column_gate ["Foo"] [[1]] (map_columns ((["Foo"]).map stripStr))
      rfl).2.1 (by decide) (by decide)⟩

/-- C8: the boost-fluctuation detector flags exactly the rows with a
predecessor whose boost step exceeds 3 psi in absolute value; position 0 is
never selected by the mask, and on boost values [10, 10, 14, 14] exactly the
row at index 2 is flagged. -/
theorem boost_fluctuation_rows (w : DataTable) :
    (∀ r, r ∈ boost_fluctuations w ↔
      ∃ j a b, 1 ≤ j ∧ w.rows.get? j = some r ∧
        (colVals w "Boost Pressure").get? j = some a ∧
        (colVals w "Boost Pressure").get? (j - 1) = some b ∧
        |a - b| > 3) ∧
    (∀ vals : List ℚ,
      (diffGtMask vals 3).get? 0 = if vals = [] then none else some false) ∧
    boost_fluctuations ⟨["Time", "Boost Pressure"], [[0, 10], [1, 10], [2, 14], [3, 14]]⟩
      = [[2, 14]] := by
  refine ⟨?_, fun vals => diffGtMask_get_zero vals 3, ?_⟩
  · intro r
    simp only [boost_fluctuations]
    rw [mem_filterByMask]
    constructor
    · rintro ⟨j, h1, h2⟩
      cases j with
      | zero =>
          rw [diffGtMask_get_zero] at h2
          split at h2 <;> simp at h2
      | succ j =>
          rw [diffGtMask_get_succ] at h2
          cases ha : (colVals w "Boost Pressure").get? (j + 1) with
          | none => rw [ha] at h2; simp at h2
          | some a =>
              rw [ha] at h2
              cases hb : (colVals w "Boost Pressure").get? j with
              | none => rw [hb] at h2; simp at h2
              | some b =>
                  rw [hb] at h2
                  simp at h2
                  exact ⟨j + 1, a, b, Nat.succ_le_succ (Nat.zero_le j), h1, ha, hb, h2⟩
    · rintro ⟨j, a, b, hj, h1, ha, hb, hab⟩
      obtain ⟨j2, rfl⟩ : ∃ j2, j = j2 + 1 := ⟨j - 1, by omega⟩
      refine ⟨j2 + 1, h1, ?_⟩
      rw [diffGtMask_get_succ, ha]
      rw [show j2 + 1 - 1 = j2 from rfl] at hb
      rw [hb]
      simp [hab]
  · have h1 : colVals ⟨["Time", "Boost Pressure"], [[0, 10], [1, 10], [2, 14], [3, 14]]⟩
        "Boost Pressure" = [10, 10, 14, 14] := by decide
    show filterByMask _ (diffGtMask _ 3) = _
    rw [h1]
    have h2 : diffGtMask [(10 : ℚ), 10, 14, 14] 3 = [false, false, true, false] := by
      simp only [diffGtMask, List.zip_cons_cons, List.zip_nil_left, List.map_cons,
        List.map_nil, List.cons.injEq, and_true]
      norm_num
    rw [h2]
    decide

/-- C8 (witness): the characterization instantiated at the flagged row of the
concrete [10, 10, 14, 14] table. -/
theorem boost_fluctuation_rows_witness :
    boost_fluctuations ⟨["Time", "Boost Pressure"], [[0, 10], [1, 10], [2, 14], [3, 14]]⟩
      = [[2, 14]] :=
  (boost_fluctuation_rows
    ⟨["Time", "Boost Pressure"], [[0, 10], [1, 10], [2, 14], [3, 14]]⟩).2.2

/-- C9: the (spec-modelled) timing dip-then-recover detector flags exactly
the interior indices whose value dips below the predecessor and recovers at
the successor; [5, 3, 7] flags index 1 and [5, 3, 1] flags nothing. -/
theorem dip_recover_flags (ts : List ℚ) (i : ℕ) :
    (i ∈ timing_dip_recover ts ↔
      1 ≤ i ∧ i + 1 < ts.length ∧
      ts.getD i 0 < ts.getD (i - 1) 0 ∧ ts.getD (i + 1) 0 > ts.getD i 0) ∧
    timing_dip_recover [5, 3, 7] = [1] ∧
    timing_dip_recover [5, 3, 1] = [] := by
  refine ⟨?_, by decide, by decide⟩
  simp only [timing_dip_recover, List.mem_filter, List.mem_range, Bool.and_eq_true,
    decide_eq_true_eq]
  constructor
  · rintro ⟨-, ⟨⟨⟨h1, h2⟩, h3⟩, h4⟩⟩
    exact ⟨h1, h2, h3, h4⟩
  · rintro ⟨h1, h2, h3, h4⟩
    exact ⟨by omega, ⟨⟨h1, h2⟩, h3⟩, h4⟩

/-- C9 (witness): the characterization instantiated at the flagged index of
[5, 3, 7]. -/
theorem dip_recover_flags_witness :
    1 ∈ timing_dip_recover [5, 3, 7] ↔
      1 ≤ 1 ∧ 1 + 1 < ([5, 3, 7] : List ℚ).length ∧
      ([5, 3, 7] : List ℚ).getD 1 0 < ([5, 3, 7] : List ℚ).getD 0 0 ∧
      ([5, 3, 7] : List ℚ).getD 2 0 > ([5, 3, 7] : List ℚ).getD 1 0 :=
  (dip_recover_flags [5, 3, 7] 1).1

end Datalog
